import Mathlib

/-!
# Verification of the LocoDex secure code-execution sandbox

Shallow embedding of the sandbox core:
* `docker/sandbox/ultra_secure_validator.py` — AST-based validator, network
  pattern validator, `validate_code_ultra_secure`;
* `docker/sandbox/sandbox_server.py` — `SandboxSecurity.validate_code`,
  `CodeExecutor._run_subprocess_secure`;
* `docker/sandbox/secure_executor.py` — the file-based worker
  (`SecureFileExecutor`);
* `docker/sandbox/network_security_validator.py` — the network isolation
  auditor.

Python source text is not parsed here: a validated input is modelled as the
pair of its raw text and the outcome of `ast.parse` on it (`PySource`).
OS-level effects (subprocess execution, the filesystem command/result
directories) are modelled by explicit state passing with an environment
record carrying the outcome of each externally-determined step.
-/

/-- Source position of an AST node (`lineno`, `col_offset`).  `ast.Module`
has no position; nodes modelled here all carry one, matching
`getattr(node, 'lineno', 0)` / `getattr(node, 'col_offset', 0)`. -/
structure Pos where
  line : Nat
  col : Nat
deriving DecidableEq, Repr

/-- `SecurityViolation` dataclass of `ultra_secure_validator.py`:
`{type, message, line, column, severity}` with severity one of
`"CRITICAL"`, `"HIGH"`, `"MEDIUM"`. -/
structure SecurityViolation where
  type : String
  message : String
  line : Nat
  column : Nat
  severity : String
deriving DecidableEq, Repr

/-! ### String helpers

Kernel-computable counterparts of the Python string operations the
sandbox uses (Lean's own `String.trim`, `String.splitOn`, `String.take`,
`String.toLower`, `String.startsWith` are defined by well-founded
recursion and do not evaluate inside `decide`). -/

/-- Python's whitespace set for `str.strip()` / `str.isspace()`. -/
def isPySpace (c : Char) : Bool :=
  c = ' ' || c = '\t' || c = '\n' || c = '\r' || c = '\x0b' || c = '\x0c'

/-- `not s or not s.strip()`: the string is empty or all whitespace. -/
def isBlank (s : String) : Bool := s.toList.all isPySpace

/-- `s.startswith(pre)`. -/
def strStartsWith (s pre : String) : Bool := pre.toList.isPrefixOf s.toList

/-- `s.endswith(suf)`. -/
def strEndsWith (s suf : String) : Bool := suf.toList.isSuffixOf s.toList

/-- `s.split('.')[0]`: the part before the first dot. -/
def topModule (s : String) : String := String.mk (s.toList.takeWhile (· ≠ '.'))

/-- `code.split('\n')` on character lists. -/
def splitLinesAux (cs : List Char) (acc : List Char) : List (List Char) :=
  match cs with
  | [] => [acc.reverse]
  | c :: rest =>
    if c = '\n' then acc.reverse :: splitLinesAux rest []
    else splitLinesAux rest (c :: acc)

/-- `code.split('\n')`. -/
def splitLines (s : String) : List (List Char) := splitLinesAux s.toList []

/-- Python slicing `s[:n]`. -/
def truncate (n : Nat) (s : String) : String := String.mk (s.toList.take n)

/-- Python's substring test `pat in s`, on character lists. -/
def listInfixOf (pat : List Char) : List Char → Bool
  | [] => pat.isEmpty
  | c :: rest => pat.isPrefixOf (c :: rest) || listInfixOf pat rest

/-- `pat in s` on strings. -/
def strContains (s pat : String) : Bool := listInfixOf pat.toList s.toList

/-- Payload of an `ast.Constant` node, as far as the validator inspects it
(`visit_Subscript` checks `isinstance(node.slice.value, str)`). -/
inductive PyConst : Type where
  | str : String → PyConst
  | int : Int → PyConst
  | noneC : PyConst
  | boolC : Bool → PyConst
deriving DecidableEq, Repr

mutual
/-- Python expression nodes, covering the node kinds the validator's
per-kind policy mentions plus the generic containers needed to write
realistic programs.  `call` omits keyword arguments, `binOp` omits the
operator tag, and `lambdaE` keeps only the body: none of those omitted
fields is inspected by any visitor of `UltraSecureValidator`. -/
inductive PyExpr : Type where
  | name : Pos → String → PyExpr
  | attribute : Pos → PyExpr → String → PyExpr
  | call : Pos → PyExpr → PyExprList → PyExpr
  | subscript : Pos → PyExpr → PyExpr → PyExpr
  | constant : Pos → PyConst → PyExpr
  | lambdaE : Pos → PyExpr → PyExpr
  | binOp : Pos → PyExpr → PyExpr → PyExpr
  | tupleE : Pos → PyExprList → PyExpr
  | listE : Pos → PyExprList → PyExpr
/-- Lists of expressions (explicit, to keep all recursion structural). -/
inductive PyExprList : Type where
  | nil : PyExprList
  | cons : PyExpr → PyExprList → PyExprList
/-- Python statement nodes.  `functionDef` is (name, decorator_list, body);
`classDef` is (name, bases, keywords, body); `tryS` is
(body, handler bodies, orelse, finalbody). -/
inductive PyStmt : Type where
  | exprStmt : Pos → PyExpr → PyStmt
  | assign : Pos → PyExprList → PyExpr → PyStmt
  | importS : Pos → List String → PyStmt
  | importFrom : Pos → Option String → List String → PyStmt
  | functionDef : Pos → String → PyExprList → PyStmtList → PyStmt
  | classDef : Pos → String → PyExprList → PyExprList → PyStmtList → PyStmt
  | globalS : Pos → List String → PyStmt
  | nonlocalS : Pos → List String → PyStmt
  | withS : Pos → PyExprList → PyStmtList → PyStmt
  | tryS : Pos → PyStmtList → PyStmtList → PyStmtList → PyStmtList → PyStmt
  | ifS : Pos → PyExpr → PyStmtList → PyStmtList → PyStmt
  | returnS : Pos → Option PyExpr → PyStmt
  | passS : Pos → PyStmt
/-- Lists of statements; a parsed `ast.Module` is a `PyStmtList`. -/
inductive PyStmtList : Type where
  | nil : PyStmtList
  | cons : PyStmt → PyStmtList → PyStmtList
end

namespace UltraSecureValidator

/-- `UltraSecureValidator._get_allowed_builtins`. -/
def allowed_builtins : List String :=
  ["int", "float", "str", "bool", "list", "dict", "tuple", "set",
   "abs", "min", "max", "sum", "round", "pow",
   "len", "ord", "chr",
   "range", "enumerate", "zip",
   "type", "isinstance",
   "print"]

/-- `UltraSecureValidator._get_allowed_modules`. -/
def allowed_modules : List String :=
  ["math", "random", "datetime", "json", "numpy", "pandas"]

/-- `UltraSecureValidator._get_dangerous_attributes`. -/
def dangerous_attributes : List String :=
  ["__import__", "__builtins__", "__globals__", "__locals__",
   "__dict__", "__class__", "__bases__", "__mro__", "__subclasses__",
   "__code__", "__func__", "__closure__", "__module__",
   "func_globals", "func_code", "gi_frame", "gi_code",
   "__file__", "__path__", "__package__", "__spec__",
   "__loader__", "__cached__", "__doc__", "__name__"]

/-- The runtime value of `dir(builtins)` consulted in `visit_Call`,
transcribed from CPython 3 (exception types, constants, and builtin
functions). -/
def dirBuiltins : List String :=
  ["ArithmeticError", "AssertionError", "AttributeError", "BaseException",
   "BaseExceptionGroup", "BlockingIOError", "BrokenPipeError", "BufferError",
   "BytesWarning", "ChildProcessError", "ConnectionAbortedError",
   "ConnectionError", "ConnectionRefusedError", "ConnectionResetError",
   "DeprecationWarning", "EOFError", "Ellipsis", "EncodingWarning",
   "EnvironmentError", "Exception", "ExceptionGroup", "False",
   "FileExistsError", "FileNotFoundError", "FloatingPointError",
   "FutureWarning", "GeneratorExit", "IOError", "ImportError",
   "ImportWarning", "IndentationError", "IndexError", "InterruptedError",
   "IsADirectoryError", "KeyError", "KeyboardInterrupt", "LookupError",
   "MemoryError", "ModuleNotFoundError", "NameError", "None",
   "NotADirectoryError", "NotImplemented", "NotImplementedError", "OSError",
   "OverflowError", "PendingDeprecationWarning", "PermissionError",
   "ProcessLookupError", "RecursionError", "ReferenceError",
   "ResourceWarning", "RuntimeError", "RuntimeWarning",
   "StopAsyncIteration", "StopIteration", "SyntaxError", "SyntaxWarning",
   "SystemError", "SystemExit", "TabError", "TimeoutError", "True",
   "TypeError", "UnboundLocalError", "UnicodeDecodeError",
   "UnicodeEncodeError", "UnicodeError", "UnicodeTranslateError",
   "UnicodeWarning", "UserWarning", "ValueError", "Warning",
   "ZeroDivisionError", "__build_class__", "__debug__", "__doc__",
   "__import__", "__loader__", "__name__", "__package__", "__spec__",
   "abs", "aiter", "all", "anext", "any", "ascii", "bin", "bool",
   "breakpoint", "bytearray", "bytes", "callable", "chr", "classmethod",
   "compile", "complex", "copyright", "credits", "delattr", "dict", "dir",
   "divmod", "enumerate", "eval", "exec", "exit", "filter", "float",
   "format", "frozenset", "getattr", "globals", "hasattr", "hash", "help",
   "hex", "id", "input", "int", "isinstance", "issubclass", "iter", "len",
   "license", "list", "locals", "map", "max", "memoryview", "min", "next",
   "object", "oct", "open", "ord", "pow", "print", "property", "quit",
   "range", "repr", "reversed", "round", "set", "setattr", "slice",
   "sorted", "staticmethod", "str", "sum", "super", "tuple", "type",
   "vars", "zip"]

/-- `UltraSecureValidator._add_violation` (severity filled by each caller). -/
def mkViol (t m : String) (p : Pos) (sev : String) : SecurityViolation :=
  ⟨t, m, p.line, p.col, sev⟩

/-- Violations `visit_Name` records for a `Name` node. -/
def nameViolations (p : Pos) (id : String) : List SecurityViolation :=
  if id ∈ ["__builtins__", "__import__", "exec", "eval"] then
    [mkViol "DANGEROUS_NAME" ("Access to dangerous name: " ++ id) p "CRITICAL"]
  else []

/-- Violations `visit_Attribute` records for an `Attribute` node: the
dangerous-attribute check followed by the restricted-dunder check (both can
fire for the same name). -/
def attrViolations (p : Pos) (attr : String) : List SecurityViolation :=
  (if attr ∈ dangerous_attributes then
    [mkViol "DANGEROUS_ATTRIBUTE" ("Access to dangerous attribute: " ++ attr)
      p "CRITICAL"]
  else []) ++
  (if strStartsWith attr "__" && strEndsWith attr "__" &&
      !(attr ∈ ["__len__", "__str__", "__repr__", "__int__", "__float__"]) then
    [mkViol "DUNDER_ACCESS" ("Access to restricted dunder attribute: " ++ attr)
      p "CRITICAL"]
  else [])

/-- Violations `visit_Call` records for the call node itself, by case on the
shape of `node.func` (positions are those of the `Call` node). -/
def callViolations (p : Pos) (func : PyExpr) : List SecurityViolation :=
  match func with
  | .name _ id =>
    if id ∈ ["eval", "exec", "compile", "__import__"] then
      [mkViol "DANGEROUS_BUILTIN" ("Dangerous builtin function: " ++ id)
        p "CRITICAL"]
    else if id ∈ dirBuiltins && !(id ∈ allowed_builtins) then
      [mkViol "FORBIDDEN_BUILTIN" ("Forbidden builtin function: " ++ id)
        p "CRITICAL"]
    else []
  | .attribute _ _ attr =>
    if attr ∈ ["__import__", "__getattribute__", "__setattr__", "__delattr__"] then
      [mkViol "DANGEROUS_METHOD" ("Dangerous method call: " ++ attr)
        p "CRITICAL"]
    else []
  | _ => []

/-- Violations `visit_Subscript` records: a string-constant index that is a
dangerous attribute name.  The message uses Python `repr` of the key, here
a single-quoted string. -/
def subscriptViolations (p : Pos) (slice : PyExpr) : List SecurityViolation :=
  match slice with
  | .constant _ (.str v) =>
    if v ∈ dangerous_attributes then
      [mkViol "DANGEROUS_SUBSCRIPT" ("Dangerous subscript access: [\x27" ++ v ++ "\x27]")
        p "CRITICAL"]
    else []
  | _ => []

/-- Violations `visit_Import` records: one `FORBIDDEN_IMPORT` per alias
whose top-level module (`alias.name.split('.')[0]`) is not allow-listed. -/
def importViolations (p : Pos) (names : List String) : List SecurityViolation :=
  match names with
  | [] => []
  | n :: rest =>
    (if topModule n ∈ allowed_modules then []
     else [mkViol "FORBIDDEN_IMPORT" ("Import of forbidden module: " ++ n)
       p "CRITICAL"]) ++ importViolations p rest

/-- The wildcard-alias part of `visit_ImportFrom`. -/
def wildcardViolations (p : Pos) (names : List String) : List SecurityViolation :=
  match names with
  | [] => []
  | n :: rest =>
    (if n = "*" then
      [mkViol "WILDCARD_IMPORT" "Wildcard imports are forbidden" p "CRITICAL"]
     else []) ++ wildcardViolations p rest

/-- Violations `visit_ImportFrom` records: module allow-list check, then the
wildcard check over the aliases. -/
def importFromViolations (p : Pos) (mod : Option String) (names : List String) :
    List SecurityViolation :=
  (match mod with
   | some m =>
     if topModule m ∈ allowed_modules then []
     else [mkViol "FORBIDDEN_IMPORT" ("Import from forbidden module: " ++ m)
       p "CRITICAL"]
   | none => []) ++ wildcardViolations p names

/-- The decorator checks of `visit_FunctionDef`: a `Name` decorator outside
`property`/`staticmethod`/`classmethod` is flagged HIGH; decorators of any
other expression shape are silently skipped. -/
def decoratorViolations (p : Pos) (decorators : PyExprList) : List SecurityViolation :=
  match decorators with
  | .nil => []
  | .cons d rest =>
    (match d with
     | .name _ id =>
       if id ∈ ["property", "staticmethod", "classmethod"] then []
       else [mkViol "DANGEROUS_DECORATOR"
         ("Potentially dangerous decorator: " ++ id) p "HIGH"]
     | _ => []) ++ decoratorViolations p rest

mutual
/-- The visitor of `UltraSecureValidator` on an expression node: the node's
own violations (per the `visit_*` method for its kind) followed by the
violations of its children in AST field order (`generic_visit`). -/
def visitExpr : PyExpr → List SecurityViolation
  | .name p id => nameViolations p id
  | .attribute p v attr => attrViolations p attr ++ visitExpr v
  | .call p f args => callViolations p f ++ visitExpr f ++ visitExprList args
  | .subscript p v s => subscriptViolations p s ++ visitExpr v ++ visitExpr s
  | .constant _ _ => []
  | .lambdaE p b =>
    [mkViol "LAMBDA_EXPRESSION" "Lambda expressions are forbidden for security"
      p "HIGH"] ++ visitExpr b
  | .binOp _ l r => visitExpr l ++ visitExpr r
  | .tupleE _ es => visitExprList es
  | .listE _ es => visitExprList es
/-- Visitor on an expression list. -/
def visitExprList : PyExprList → List SecurityViolation
  | .nil => []
  | .cons e es => visitExpr e ++ visitExprList es
/-- The visitor of `UltraSecureValidator` on a statement node. -/
def visitStmt : PyStmt → List SecurityViolation
  | .exprStmt _ e => visitExpr e
  | .assign _ targets value => visitExprList targets ++ visitExpr value
  | .importS p names => importViolations p names
  | .importFrom p mod names => importFromViolations p mod names
  | .functionDef p _ decorators body =>
    decoratorViolations p decorators ++ visitStmtList body ++
      visitExprList decorators
  | .classDef p _ bases keywords body =>
    (if bases matches .cons _ _ then
      [mkViol "COMPLEX_CLASS"
        "Classes with inheritance or metaclasses are forbidden" p "CRITICAL"]
     else if keywords matches .cons _ _ then
      [mkViol "COMPLEX_CLASS"
        "Classes with inheritance or metaclasses are forbidden" p "CRITICAL"]
     else []) ++ visitExprList bases ++ visitExprList keywords ++
      visitStmtList body
  | .globalS p _ =>
    [mkViol "GLOBAL_STATEMENT" "Global statements are forbidden" p "CRITICAL"]
  | .nonlocalS p _ =>
    [mkViol "NONLOCAL_STATEMENT" "Nonlocal statements are forbidden" p "HIGH"]
  | .withS p items body =>
    [mkViol "WITH_STATEMENT" "With statements are forbidden (potential file access)"
      p "CRITICAL"] ++ visitExprList items ++ visitStmtList body
  | .tryS p body handlers orelse finalBody =>
    [mkViol "TRY_EXCEPT" "Try-except blocks are forbidden (can suppress security errors)"
      p "HIGH"] ++ visitStmtList body ++ visitStmtList handlers ++
      visitStmtList orelse ++ visitStmtList finalBody
  | .ifS _ c thenB elseB => visitExpr c ++ visitStmtList thenB ++ visitStmtList elseB
  | .returnS _ e => match e with | some e => visitExpr e | none => []
  | .passS _ => []
/-- Visitor on a statement list (in particular a module body). -/
def visitStmtList : PyStmtList → List SecurityViolation
  | .nil => []
  | .cons s ss => visitStmt s ++ visitStmtList ss
end

/-- The data `ast.parse` raises on a syntax error (`e.msg`,
`e.lineno or 0`, `e.offset or 0`). -/
structure SyntaxErr where
  msg : String
  lineno : Nat
  offset : Nat
deriving DecidableEq, Repr

/-- `UltraSecureValidator.validate`: walk the parsed tree, or produce the
single HIGH `SYNTAX_ERROR` violation when parsing failed. -/
def validate : Except SyntaxErr PyStmtList → List SecurityViolation
  | .ok m => visitStmtList m
  | .error e =>
    [⟨"SYNTAX_ERROR", "Syntax error: " ++ e.msg, e.lineno, e.offset, "HIGH"⟩]

end UltraSecureValidator

/-! ## Regex pattern layers

The validator appplies `re.search(pattern, line, re.IGNORECASE)` per line,
with a fixed pattern list.  Each pattern here is hand-compiled into an
executable matcher (`NetPattern.matches`, taking the already-lowercased
line); `src` keeps the original regex text, which appears verbatim in the
violation messages.  Every pattern is a sequence of literals, `\s*`, and
`\s+` (with each `\s`-run followed by a non-whitespace literal, so maximal
munch coincides with backtracking), except `https?://` (an alternation of
two literals) and the IPv4 pattern, compiled separately below. -/

namespace Patterns

/-- One token of a compiled pattern: a literal, `\s*`, or `\s+`. -/
inductive Tok : Type where
  | lit : List Char → Tok
  | wsStar : Tok
  | wsPlus : Tok

/-- `\s` (per line; lines are split on newline first). -/
def isWs (c : Char) : Bool := c = ' ' || c = '\t' || c = '\r' || c = '\x0b' || c = '\x0c'

/-- `\w` for the ASCII text these patterns are applied to. -/
def isWordChar (c : Char) : Bool := c.isAlphanum || c = '_'

/-- Match a token sequence at the start of `cs`. -/
def matchToksAt : List Tok → List Char → Bool
  | [], _ => true
  | .lit s :: rest, cs => s.isPrefixOf cs && matchToksAt rest (cs.drop s.length)
  | .wsStar :: rest, cs => matchToksAt rest (cs.dropWhile isWs)
  | .wsPlus :: rest, cs =>
    match cs with
    | [] => false
    | c :: cs' => isWs c && matchToksAt rest (cs'.dropWhile isWs)

/-- `re.search` for a token sequence: match at some position. -/
def searchToks (toks : List Tok) : List Char → Bool
  | [] => matchToksAt toks []
  | c :: cs => matchToksAt toks (c :: cs) || searchToks toks cs

/-- Length of the leading digit run. -/
def digitRunLen (cs : List Char) : Nat := (cs.takeWhile Char.isDigit).length

/-- Match `[0-9]{1,3}\.` at the start, returning the rest.  (The digit run
must itself end at the dot, which makes the `{1,3}` backtracking
deterministic.) -/
def matchOctetDot (cs : List Char) : Option (List Char) :=
  let n := digitRunLen cs
  if 1 ≤ n ∧ n ≤ 3 ∧ cs.get? n = some '.' then some (cs.drop (n + 1)) else none

/-- Match `(?:[0-9]{1,3}\.){3}[0-9]{1,3}\b` at the start of `cs`. -/
def matchIpTail (cs : List Char) : Bool :=
  match matchOctetDot cs with
  | none => false
  | some r1 =>
    match matchOctetDot r1 with
    | none => false
    | some r2 =>
      match matchOctetDot r2 with
      | none => false
      | some r3 =>
        let n := digitRunLen r3
        decide (1 ≤ n ∧ n ≤ 3) &&
          (match r3.get? n with
           | none => true
           | some c => !isWordChar c)

/-- `re.search(r'\b(?:[0-9]{1,3}\.){3}[0-9]{1,3}\b', ...)`: try each
position whose left context is a word boundary. -/
def ipv4SearchAux (prev : Option Char) (cs : List Char) : Bool :=
  ((match prev with | none => true | some c => !isWordChar c) && matchIpTail cs) ||
    match cs with
    | [] => false
    | c :: rest => ipv4SearchAux (some c) rest

/-- Search helper entry point for the IPv4 pattern. -/
def ipv4Search (cs : List Char) : Bool := ipv4SearchAux none cs

/-- A compiled denylist pattern: the regex source text (as written in the
Python list, used in messages) and its matcher on the lowercased line. -/
structure NetPattern where
  src : String
  matchFn : List Char → Bool

/-- Shorthand: pattern `a` (literal). -/
def pLit (src a : String) : NetPattern :=
  ⟨src, searchToks [.lit a.toList]⟩

/-- Shorthand: pattern `a\s*X` for a literal `a` and single character `X`. -/
def pLitWsStarChar (src a : String) (x : Char) : NetPattern :=
  ⟨src, searchToks [.lit a.toList, .wsStar, .lit [x]]⟩

/-- Shorthand: pattern `a\s+b`. -/
def pLitWsPlusLit (src a b : String) : NetPattern :=
  ⟨src, searchToks [.lit a.toList, .wsPlus, .lit b.toList]⟩

/-- Shorthand: pattern `a\s+b\s+c`. -/
def pLitWsPlusLit2 (src a b c : String) : NetPattern :=
  ⟨src, searchToks [.lit a.toList, .wsPlus, .lit b.toList, .wsPlus, .lit c.toList]⟩

end Patterns

namespace NetworkSecurityValidator

open Patterns

/-- `NetworkSecurityValidator.NETWORK_PATTERNS` of
`ultra_secure_validator.py`, in list order, each hand-compiled. -/
def NETWORK_PATTERNS : List NetPattern :=
  [pLitWsStarChar "socket\\s*\\." "socket" '.',
   pLit "urllib\\." "urllib.",
   pLit "requests\\." "requests.",
   pLit "http\\." "http.",
   pLit "ftplib\\." "ftplib.",
   pLit "smtplib\\." "smtplib.",
   pLit "telnetlib\\." "telnetlib.",
   pLitWsPlusLit "import\\s+socket" "import" "socket",
   pLitWsPlusLit "import\\s+urllib" "import" "urllib",
   pLitWsPlusLit "import\\s+requests" "import" "requests",
   pLitWsPlusLit "import\\s+http" "import" "http",
   pLitWsPlusLit2 "from\\s+socket\\s+import" "from" "socket" "import",
   pLitWsPlusLit2 "from\\s+urllib\\s+import" "from" "urllib" "import",
   ⟨"https?://", fun cs => searchToks [.lit "http://".toList] cs ||
     searchToks [.lit "https://".toList] cs⟩,
   pLit "ftp://" "ftp://",
   pLit "ftps://" "ftps://",
   ⟨"\\b(?:[0-9]{1,3}\\.){3}[0-9]{1,3}\\b", ipv4Search⟩,
   pLit "localhost" "localhost",
   pLit "127\\.0\\.0\\.1" "127.0.0.1",
   pLitWsStarChar "connect\\s*\\(" "connect" '(',
   pLitWsStarChar "bind\\s*\\(" "bind" '(',
   pLitWsStarChar "listen\\s*\\(" "listen" '(',
   pLitWsStarChar "accept\\s*\\(" "accept" '(',
   pLitWsStarChar "send\\s*\\(" "send" '(',
   pLitWsStarChar "recv\\s*\\(" "recv" '(',
   pLitWsStarChar "sendto\\s*\\(" "sendto" '(',
   pLitWsStarChar "recvfrom\\s*\\(" "recvfrom" '(']

/-- Violations of one line against a pattern list (inner loop of
`validate_network_security`); `re.IGNORECASE` is realized by lowercasing
the line (all pattern literals are lowercase). -/
def lineViolations (vType msgPrefix : String) (patterns : List NetPattern)
    (lineNum : Nat) (line : List Char) : List SecurityViolation :=
  match patterns with
  | [] => []
  | p :: rest =>
    (if p.matchFn (line.map Char.toLower) then
      [⟨vType, msgPrefix ++ p.src, lineNum, 0, "CRITICAL"⟩]
     else []) ++ lineViolations vType msgPrefix rest lineNum line

/-- Outer loop over `enumerate(code.split('\n'), 1)`. -/
def linesViolations (vType msgPrefix : String) (patterns : List NetPattern)
    (lineNum : Nat) (lines : List (List Char)) : List SecurityViolation :=
  match lines with
  | [] => []
  | l :: rest =>
    lineViolations vType msgPrefix patterns lineNum l ++
      linesViolations vType msgPrefix patterns (lineNum + 1) rest

/-- `NetworkSecurityValidator.validate_network_security` of
`ultra_secure_validator.py`. -/
def validate_network_security (code : String) : List SecurityViolation :=
  linesViolations "NETWORK_ACCESS" "Network access detected: " NETWORK_PATTERNS
    1 (splitLines code)

end NetworkSecurityValidator

namespace UltraSecureValidator

open Patterns

/-- `dangerous_js_patterns` of `_validate_javascript_patterns`, in list
order, hand-compiled (matchers run on the lowercased line). -/
def dangerous_js_patterns : List NetPattern :=
  [pLitWsStarChar "eval\\s*\\(" "eval" '(',
   pLitWsStarChar "Function\\s*\\(" "function" '(',
   pLitWsStarChar "setTimeout\\s*\\(" "settimeout" '(',
   pLitWsStarChar "setInterval\\s*\\(" "setinterval" '(',
   pLitWsStarChar "require\\s*\\(" "require" '(',
   pLitWsStarChar "import\\s*\\(" "import" '(',
   pLitWsStarChar "fetch\\s*\\(" "fetch" '(',
   pLit "XMLHttpRequest" "xmlhttprequest",
   pLit "WebSocket" "websocket",
   pLit "location\\." "location.",
   pLit "window\\." "window.",
   pLit "document\\." "document.",
   pLit "global\\." "global.",
   pLit "process\\." "process.",
   pLit "Buffer\\." "buffer.",
   pLit "__dirname" "__dirname",
   pLit "__filename" "__filename",
   pLit "\\.constructor\\." ".constructor.",
   pLit "this\\.constructor" "this.constructor",
   pLit "constructor\\.constructor" "constructor.constructor",
   pLit "prototype\\." "prototype.",
   pLit "__proto__\\." "__proto__."]

/-- `_validate_javascript_patterns` of `ultra_secure_validator.py`. -/
def validate_javascript_patterns (code : String) : List SecurityViolation :=
  NetworkSecurityValidator.linesViolations "DANGEROUS_JS_PATTERN"
    "Dangerous JavaScript pattern: " dangerous_js_patterns 1 (splitLines code)

end UltraSecureValidator

/-- A validated input: the raw source text together with the outcome of
`ast.parse` on it.  Parsing itself is outside the embedding; theorems
quantify over all such pairs, and concrete instances pair a literal code
string with its actual parse. -/
structure PySource where
  code : String
  parsed : Except UltraSecureValidator.SyntaxErr PyStmtList

/-- `validate_code_ultra_secure` of `ultra_secure_validator.py`: AST walk
plus network patterns for Python, JS patterns plus network patterns for
JavaScript, and a single CRITICAL `UNSUPPORTED_LANGUAGE` violation for any
other language. -/
def validate_code_ultra_secure (src : PySource) (language : String) :
    List SecurityViolation :=
  if language = "python" then
    UltraSecureValidator.validate src.parsed ++
      NetworkSecurityValidator.validate_network_security src.code
  else if language = "javascript" then
    UltraSecureValidator.validate_javascript_patterns src.code ++
      NetworkSecurityValidator.validate_network_security src.code
  else
    [⟨"UNSUPPORTED_LANGUAGE", "Language " ++ language ++ " is not supported",
      0, 0, "CRITICAL"⟩]

namespace SandboxSecurity

/-- The rejection message built for the CRITICAL branch of
`SandboxSecurity.validate_code`. -/
def critMsg (vs : List SecurityViolation) : String :=
  "CRITICAL SECURITY VIOLATIONS DETECTED:\n" ++
    String.intercalate "\n"
      (vs.map fun v => "Line " ++ toString v.line ++ ": " ++ v.message)

/-- The rejection message built for the HIGH branch of
`SandboxSecurity.validate_code`. -/
def highMsg (vs : List SecurityViolation) : String :=
  "HIGH SECURITY VIOLATIONS DETECTED:\n" ++
    String.intercalate "\n"
      (vs.map fun v => "Line " ++ toString v.line ++ ": " ++ v.message)

/-- `SandboxSecurity.validate_code` of `sandbox_server.py`.  A raised
`SecurityError` is modelled as `.error` carrying the exception message.
Sanity checks run first (`not code or not code.strip()`, then
`len(code) > 5000`); only then is `validate_code_ultra_secure` consulted,
CRITICAL violations first, then HIGH; MEDIUM violations are only logged. -/
def validate_code (src : PySource) (language : String) : Except String Bool :=
  if isBlank src.code then .error "Empty code not allowed"
  else if src.code.length > 5000 then
    .error "Code too long - maximum 5KB allowed"
  else
    let violations := validate_code_ultra_secure src language
    let critical_violations := violations.filter fun v => v.severity == "CRITICAL"
    if critical_violations.isEmpty then
      let high_violations := violations.filter fun v => v.severity == "HIGH"
      if high_violations.isEmpty then .ok true
      else .error (highMsg high_violations)
    else .error (critMsg critical_violations)

/-- Whether validation accepted (returned normally rather than raising). -/
def accepted (src : PySource) (language : String) : Bool :=
  match validate_code src language with
  | .ok _ => true
  | .error _ => false

end SandboxSecurity

/-- Whether the violation list produced for an input contains no violation
of severity CRITICAL or HIGH. -/
def noCritHigh (src : PySource) (language : String) : Bool :=
  (validate_code_ultra_secure src language).all fun v =>
    !(v.severity == "CRITICAL" || v.severity == "HIGH")

/-! ## Execution engines

Subprocess execution is an OS effect; its outcome for one run is modelled
by `SubprocOutcome`: normal completion with captured output and exit
status, expiry of the `communicate` timeout, or an exception from process
setup (e.g. a missing interpreter binary). -/

/-- Outcome of the `subprocess.Popen`/`communicate` interaction. -/
inductive SubprocOutcome : Type where
  | completed : String → String → Int → SubprocOutcome
  | timedOut : SubprocOutcome
  | failed : String → SubprocOutcome

/-- The `{'stdout','stderr','returncode'}` dict both executors build. -/
structure SubprocResult where
  stdout : String
  stderr : String
  returncode : Int
deriving DecidableEq, Repr

/-- `ExecutionResult` dataclass of `sandbox_server.py`.  `execution_time`
(a float in the source) and the usage counters are modelled as naturals;
no claim depends on their arithmetic. -/
structure ExecutionResult where
  stdout : String
  stderr : String
  exit_code : Int
  execution_time : Nat
  memory_usage : Nat
  cpu_usage : Nat
deriving DecidableEq, Repr

namespace CodeExecutor

/-- `CodeExecutor._run_subprocess_secure` of `sandbox_server.py` (leading
underscore dropped): on completion, truncate both streams to 10000
characters; on `TimeoutExpired`, kill the process group and return the
synthetic `-9` record; on any other exception return the `-1` record. -/
def run_subprocess_secure (outcome : SubprocOutcome) (_timeout : Nat) :
    SubprocResult :=
  match outcome with
  | .completed out err rc => ⟨truncate 10000 out, truncate 10000 err, rc⟩
  | .timedOut => ⟨"", "EXECUTION TIMEOUT: Process killed after timeout", -9⟩
  | .failed msg => ⟨"", "EXECUTION ERROR: " ++ msg, -1⟩

end CodeExecutor

namespace SecureFileExecutor

/-- `ExecutionCommand` dataclass of `secure_executor.py`.  The `code`
field is the raw text paired with its parse outcome (`PySource`). -/
structure ExecutionCommand where
  id : String
  code : PySource
  language : String
  timeout : Nat
  timestamp : Nat

/-- Environment for one pass of the worker: the unique name `mkstemp`
allocates in the workspace, the subprocess outcome, the measured elapsed
time, and the `time.time()` stamp used for result records. -/
structure ExecEnv where
  tempName : String
  outcome : SubprocOutcome
  elapsed : Nat
  now : Nat

/-- `SecureFileExecutor.get_execution_command`: interpreter argv per
language; `None` models the raised `ValueError` for an unsupported one. -/
def get_execution_command (file_path language : String) : Option (List String) :=
  if language = "python" then
    some ["/usr/bin/python3", "-B", "-s", "-S", file_path]
  else if language = "javascript" then
    some ["/usr/bin/node", "--no-deprecation", "--disable-proto=delete", file_path]
  else if language = "bash" then
    some ["/bin/bash", "-r", file_path]
  else none

/-- `SecureFileExecutor.run_subprocess_secure` of `secure_executor.py`:
unlike the `CodeExecutor` variant, a timeout re-raises (`TimeoutError`
wrapped by the outer handler into `RuntimeError('Execution failed: ...')`),
and so does any other exception; only normal completion returns a record. -/
def run_subprocess_secure (outcome : SubprocOutcome) (timeout : Nat) :
    Except String SubprocResult :=
  match outcome with
  | .completed out err rc => .ok ⟨truncate 10000 out, truncate 10000 err, rc⟩
  | .timedOut =>
    .error ("Execution failed: Execution timeout after " ++ toString timeout ++
      " seconds")
  | .failed msg => .error ("Execution failed: " ++ msg)

/-- `SecureFileExecutor.execute_with_restrictions`: create the scratch file
in the workspace, then inside `try`: build the argv (raising for an
unsupported language) and run the subprocess; the `finally` block deletes
the scratch file on every exit path.  The workspace directory is modelled
as the list of file names it contains. -/
def execute_with_restrictions (env : ExecEnv) (ws : List String)
    (cmd : ExecutionCommand) : Except String ExecutionResult × List String :=
  let ws1 := env.tempName :: ws
  let res : Except String ExecutionResult :=
    match get_execution_command env.tempName cmd.language with
    | none => .error ("Unsupported language: " ++ cmd.language)
    | some _ =>
      match run_subprocess_secure env.outcome cmd.timeout with
      | .ok r =>
        .ok ⟨r.stdout, r.stderr, r.returncode, env.elapsed, 0, 0⟩
      | .error e => .error e
  (res, ws1.erase env.tempName)

/-- `SecureFileExecutor.execute_secure`: ultra-secure validation first (a
`SecurityError` is re-raised with the `SECURITY BLOCK: ` prefix), then
execution under restrictions. -/
def execute_secure (env : ExecEnv) (ws : List String)
    (cmd : ExecutionCommand) : Except String ExecutionResult × List String :=
  match SandboxSecurity.validate_code cmd.code cmd.language with
  | .error e => (.error ("SECURITY BLOCK: " ++ e), ws)
  | .ok _ => execute_with_restrictions env ws cmd

/-- A result-file record as written by `write_result`/`write_error_result`
(§ the JSON object `{stdout, stderr, exit_code, execution_time,
memory_usage, cpu_usage, timestamp, [security_error]}`); `security_error`
is `none` when the key is absent. -/
structure ResultRecord where
  stdout : String
  stderr : String
  exit_code : Int
  execution_time : Nat
  memory_usage : Nat
  cpu_usage : Nat
  timestamp : Nat
  security_error : Option Bool
deriving DecidableEq, Repr

/-- The record `SecureFileExecutor.write_result` serializes. -/
def okRecord (env : ExecEnv) (r : ExecutionResult) : ResultRecord :=
  ⟨r.stdout, r.stderr, r.exit_code, r.execution_time, r.memory_usage,
    r.cpu_usage, env.now, none⟩

/-- The record `SecureFileExecutor.write_error_result` serializes: empty
stdout, `SECURITY ERROR: `-prefixed stderr, exit code `1`, and
`security_error: true` — for every kind of processing failure. -/
def errorRecord (env : ExecEnv) (msg : String) : ResultRecord :=
  ⟨"", "SECURITY ERROR: " ++ msg, 1, 0, 0, 0, env.now, some true⟩

/-- State of the two communication directories and the workspace: the
command inbox (file stem paired with the outcome of deserializing the
file into an `ExecutionCommand`), the result outbox, and the workspace
file names. -/
structure FileState where
  inbox : List (String × Except String ExecutionCommand)
  results : List (String × ResultRecord)
  workspace : List String

/-- Writing a result file `id.json` (an overwrite if it exists). -/
def putResult (rs : List (String × ResultRecord)) (id : String)
    (rec : ResultRecord) : List (String × ResultRecord) :=
  (id, rec) :: rs.eraseP (fun e => e.1 == id)

/-- Reading a result file by command id. -/
def lookupResult (fs : FileState) (id : String) : Option ResultRecord :=
  (fs.results.find? (fun e => e.1 == id)).map (·.2)

/-- One inbox file processed by the daemon loop of
`SecureFileExecutor.run_daemon`: `process_command_file` deserializes the
command and executes it, writing a success result under the command's id
(`write_result`) or, if deserialization or processing raised, an error
result under the file's stem (`write_error_result`); the `finally` block
then deletes the command file unconditionally. -/
def process_one (env : ExecEnv) (fs : FileState) (stem : String)
    (payload : Except String ExecutionCommand) : FileState :=
  let fs1 :=
    match payload with
    | .error msg =>
      { fs with results := putResult fs.results stem (errorRecord env msg) }
    | .ok cmd =>
      match execute_secure env fs.workspace cmd with
      | (.ok res, ws') =>
        { fs with workspace := ws',
                  results := putResult fs.results cmd.id (okRecord env res) }
      | (.error msg, ws') =>
        { fs with workspace := ws',
                  results := putResult fs.results stem (errorRecord env msg) }
  { fs1 with inbox := fs1.inbox.eraseP (fun e => e.1 == stem) }

end SecureFileExecutor

/-! ## Network isolation auditor (`network_security_validator.py`)

The auditor shells out to `docker`; each probe's outcome is supplied by an
environment: `run c` is `some (returncode, stdout)` when
`docker exec ... sh -c c` returned, and `none` when it timed out or
raised (both counted as blocked by the source). -/

namespace NetworkSecurityValidator

/-- External environment of one audit run. -/
structure AuditEnv where
  psOutput : Option String
  run : String → Option (Int × String)
  dockerPort : Option String

/-- The eight probe commands of `_test_internet_blocked`. -/
def internetTestCommands : List String :=
  ["curl -m 5 --connect-timeout 3 http://google.com",
   "curl -m 5 --connect-timeout 3 http://github.com",
   "curl -m 5 --connect-timeout 3 http://1.1.1.1",
   "curl -m 5 --connect-timeout 3 https://google.com",
   "nc -w 3 google.com 80",
   "nc -w 3 8.8.8.8 53",
   "ping -c 1 -W 3 google.com",
   "ping -c 1 -W 3 8.8.8.8"]

/-- `internal_ips` of `_test_internal_network_blocked`. -/
def internalIps : List String :=
  ["192.168.1.1", "10.0.0.1", "172.16.0.1", "127.0.0.1", "localhost"]

/-- `dns_tests` of `_test_dns_blocked`. -/
def dnsTestCommands : List String :=
  ["nslookup google.com", "dig google.com", "host google.com",
   "getent hosts google.com"]

/-- `_is_container_running`: `container_name in docker ps output`;
an exception yields `False`. -/
def is_container_running (env : AuditEnv) (containerName : String) : Bool :=
  match env.psOutput with
  | some out => strContains out containerName
  | none => false

/-- Probe loop shared by `_test_internet_blocked` and
`_test_internal_network_blocked`: blocked unless some command returned 0
(timeouts and exceptions count as blocked). -/
def allProbesBlocked (env : AuditEnv) : List String → Bool
  | [] => true
  | c :: rest =>
    match env.run c with
    | some (rc, _) => if rc = 0 then false else allProbesBlocked env rest
    | none => allProbesBlocked env rest

/-- `_test_internet_blocked`. -/
def test_internet_blocked (env : AuditEnv) : Bool :=
  allProbesBlocked env internetTestCommands

/-- `_test_internal_network_blocked` (probe commands built from
`internal_ips`). -/
def test_internal_network_blocked (env : AuditEnv) : Bool :=
  allProbesBlocked env
    (internalIps.map fun ip => "curl -m 3 --connect-timeout 2 http://" ++ ip)

/-- `_test_dns_blocked`: resolution counts as working only when the
command returned 0 and its stdout mentions `google.com`. -/
def dnsProbesBlocked (env : AuditEnv) : List String → Bool
  | [] => true
  | c :: rest =>
    match env.run c with
    | some (rc, out) =>
      if rc = 0 && strContains out "google.com" then false
      else dnsProbesBlocked env rest
    | none => dnsProbesBlocked env rest

/-- `_test_dns_blocked`. -/
def test_dns_blocked (env : AuditEnv) : Bool :=
  dnsProbesBlocked env dnsTestCommands

/-- `_test_port_exposure_safe`: safe iff `docker port` returned and its
output strips to empty; an exception counts as unsafe. -/
def test_port_exposure_safe (env : AuditEnv) : Bool :=
  match env.dockerPort with
  | some out => isBlank out
  | none => false

/-- The result dict of `validate_network_isolation` (the informational
`network_info` key is omitted; no decision depends on it). -/
structure AuditResults where
  network_isolated : Bool
  internet_blocked : Bool
  internal_access_blocked : Bool
  dns_blocked : Bool
  port_exposure_safe : Bool
  violations : List String
deriving DecidableEq, Repr

/-- `NetworkSecurityValidator.validate_network_isolation` of
`network_security_validator.py`: early return with all-false fields when
the container is not running; otherwise the four sub-tests, the overall
conjunction, and the generic violation message when isolation is
incomplete. -/
def validate_network_isolation (env : AuditEnv) (containerName : String) :
    AuditResults :=
  if is_container_running env containerName then
    let ib := test_internet_blocked env
    let iab := test_internal_network_blocked env
    let db := test_dns_blocked env
    let ps := test_port_exposure_safe env
    let iso := ib && iab && db && ps
    { network_isolated := iso, internet_blocked := ib,
      internal_access_blocked := iab, dns_blocked := db,
      port_exposure_safe := ps,
      violations :=
        if iso then [] else ["Network isolation is INCOMPLETE - SECURITY RISK!"] }
  else
    { network_isolated := false, internet_blocked := false,
      internal_access_blocked := false, dns_blocked := false,
      port_exposure_safe := false,
      violations := ["Container not running or doesn\x27t exist"] }

end NetworkSecurityValidator

/-! ## Syntactic presence of a dangerous attribute access -/

mutual
/-- The tree contains an `Attribute` node whose attribute name is in
`dangerous_attributes`. -/
def exprHasDangerAttr : PyExpr → Bool
  | .name _ _ => false
  | .attribute _ v attr =>
    decide (attr ∈ UltraSecureValidator.dangerous_attributes) || exprHasDangerAttr v
  | .call _ f args => exprHasDangerAttr f || exprListHasDangerAttr args
  | .subscript _ v s => exprHasDangerAttr v || exprHasDangerAttr s
  | .constant _ _ => false
  | .lambdaE _ b => exprHasDangerAttr b
  | .binOp _ l r => exprHasDangerAttr l || exprHasDangerAttr r
  | .tupleE _ es => exprListHasDangerAttr es
  | .listE _ es => exprListHasDangerAttr es
/-- List version of `exprHasDangerAttr`. -/
def exprListHasDangerAttr : PyExprList → Bool
  | .nil => false
  | .cons e es => exprHasDangerAttr e || exprListHasDangerAttr es
/-- Statement version of `exprHasDangerAttr`. -/
def stmtHasDangerAttr : PyStmt → Bool
  | .exprStmt _ e => exprHasDangerAttr e
  | .assign _ targets value =>
    exprListHasDangerAttr targets || exprHasDangerAttr value
  | .importS _ _ => false
  | .importFrom _ _ _ => false
  | .functionDef _ _ decorators body =>
    exprListHasDangerAttr decorators || stmtListHasDangerAttr body
  | .classDef _ _ bases keywords body =>
    exprListHasDangerAttr bases || exprListHasDangerAttr keywords ||
      stmtListHasDangerAttr body
  | .globalS _ _ => false
  | .nonlocalS _ _ => false
  | .withS _ items body =>
    exprListHasDangerAttr items || stmtListHasDangerAttr body
  | .tryS _ body handlers orelse finalBody =>
    stmtListHasDangerAttr body || stmtListHasDangerAttr handlers ||
      stmtListHasDangerAttr orelse || stmtListHasDangerAttr finalBody
  | .ifS _ c thenB elseB =>
    exprHasDangerAttr c || stmtListHasDangerAttr thenB ||
      stmtListHasDangerAttr elseB
  | .returnS _ e => match e with | some e => exprHasDangerAttr e | none => false
  | .passS _ => false
/-- Module-body version of `exprHasDangerAttr`. -/
def stmtListHasDangerAttr : PyStmtList → Bool
  | .nil => false
  | .cons s ss => stmtHasDangerAttr s || stmtListHasDangerAttr ss
end

/-- A CRITICAL violation of the dangerous-attribute-access kind. -/
def isDangerAttrViol (v : SecurityViolation) : Prop :=
  v.type = "DANGEROUS_ATTRIBUTE" ∧ v.severity = "CRITICAL"

instance (v : SecurityViolation) : Decidable (isDangerAttrViol v) :=
  inferInstanceAs (Decidable (_ ∧ _))

/-! ## Concrete fixtures

Each `PySource` fixture pairs a literal code string with its actual
`ast.parse` outcome.  Column offsets in the larger fixtures are recorded
as 0 (`lineno` is exact); no stated property reads the `column` field. -/

namespace Fixtures
open SecureFileExecutor

/-- `ast.parse("")` succeeds with an empty module body. -/
def srcEmpty : PySource := ⟨"", .ok .nil⟩

/-- Parse of `print(1+1)`. -/
def astPrint : PyStmtList :=
  .cons (.exprStmt ⟨1, 0⟩ (.call ⟨1, 0⟩ (.name ⟨1, 0⟩ "print")
    (.cons (.binOp ⟨1, 6⟩ (.constant ⟨1, 6⟩ (.int 1))
      (.constant ⟨1, 8⟩ (.int 1))) .nil))) .nil

/-- The benign concrete-scenario input. -/
def srcPrint : PySource := ⟨"print(1+1)", .ok astPrint⟩

/-- The class-graph escape chain: from the empty tuple through
`__class__`/`__bases__`/`__subclasses__` to `os._exit`. -/
def escapeExpr : PyExpr :=
  .call ⟨1, 0⟩
    (.attribute ⟨1, 0⟩
      (.subscript ⟨1, 0⟩
        (.attribute ⟨1, 0⟩
          (.attribute ⟨1, 0⟩
            (.subscript ⟨1, 0⟩
              (.call ⟨1, 0⟩
                (.attribute ⟨1, 0⟩
                  (.subscript ⟨1, 0⟩
                    (.attribute ⟨1, 0⟩
                      (.attribute ⟨1, 0⟩ (.tupleE ⟨1, 0⟩ .nil) "__class__")
                      "__bases__")
                    (.constant ⟨1, 0⟩ (.int 0)))
                  "__subclasses__")
                .nil)
              (.constant ⟨1, 0⟩ (.int 104)))
            "__init__")
          "__globals__")
        (.constant ⟨1, 0⟩ (.str "os")))
      "_exit")
    (.cons (.constant ⟨1, 0⟩ (.int 0)) .nil)

/-- Module containing just the escape chain. -/
def escapeModule : PyStmtList := .cons (.exprStmt ⟨1, 0⟩ escapeExpr) .nil

/-- The escape chain as a validated input. -/
def srcEscape : PySource :=
  ⟨"().__class__.__bases__[0].__subclasses__()[104].__init__.__globals__[\x27os\x27]._exit(0)",
   .ok escapeModule⟩

/-- 5001 characters of benign code (one long identifier). -/
def longCode : String := String.mk (List.replicate 5001 'a')

/-- The 5 KB + 1 input of the C3 scenario, with its parse. -/
def longBenign : PySource :=
  ⟨longCode, .ok (.cons (.exprStmt ⟨1, 0⟩ (.name ⟨1, 0⟩ longCode)) .nil)⟩

/-- An accepted benign command. -/
def cmdPrint : ExecutionCommand := ⟨"cmd-1", srcPrint, "python", 30, 0⟩

/-- A command whose code imports a forbidden module. -/
def cmdImportOs : ExecutionCommand :=
  ⟨"cmd-os", ⟨"import os", .ok (.cons (.importS ⟨1, 0⟩ ["os"]) .nil)⟩,
   "python", 30, 0⟩

/-- Worker environment: the subprocess completes normally. -/
def envOk : ExecEnv := ⟨"exec_ok.py", .completed "2\n" "" 0, 1, 0⟩

/-- Worker environment: the subprocess hits the `communicate` timeout. -/
def envTimeout : ExecEnv := ⟨"exec_t.py", .timedOut, 30, 0⟩

/-- Worker environment: `Popen` raises because the interpreter binary is
missing. -/
def envMissing : ExecEnv :=
  ⟨"exec_m.py",
   .failed "[Errno 2] No such file or directory: \x27/usr/bin/python3\x27", 0, 0⟩

/-- Inbox holding a single benign command file. -/
def fsOne : FileState := ⟨[("cmd-1", .ok cmdPrint)], [], []⟩

/-- Audit environment: container running, every probe blocked, but
`docker port` reports one published port. -/
def auditEnvPort : NetworkSecurityValidator.AuditEnv :=
  ⟨some "locodex-sandbox\n", fun _ => none, some "8080/tcp -> 0.0.0.0:8080\n"⟩

/-- Audit environment: container running, every probe blocked, no
published ports. -/
def auditEnvClean : NetworkSecurityValidator.AuditEnv :=
  ⟨some "locodex-sandbox\n", fun _ => none, some ""⟩

/-- The rejection message `validate_code` raises for `import os`. -/
def eOs : String :=
  "CRITICAL SECURITY VIOLATIONS DETECTED:\nLine 1: Import of forbidden module: os"

end Fixtures

namespace UltraSecureValidator

mutual
/-- Any expression containing a dangerous attribute access yields a
CRITICAL `DANGEROUS_ATTRIBUTE` violation, whatever the context. -/
theorem exprDanger (e : PyExpr) (h : exprHasDangerAttr e = true) :
    ∃ v ∈ visitExpr e, isDangerAttrViol v := by
  match e with
  | .name p id => simp [exprHasDangerAttr] at h
  | .attribute p v attr =>
    rw [exprHasDangerAttr] at h
    rcases Bool.or_eq_true_iff.mp h with h1 | h1
    · refine ⟨mkViol "DANGEROUS_ATTRIBUTE"
        ("Access to dangerous attribute: " ++ attr) p "CRITICAL", ?_, rfl, rfl⟩
      simp [visitExpr, attrViolations, of_decide_eq_true h1]
    · obtain ⟨w, hw, hP⟩ := exprDanger v h1
      exact ⟨w, by simp [visitExpr, hw], hP⟩
  | .call p f args =>
    rw [exprHasDangerAttr] at h
    rcases Bool.or_eq_true_iff.mp h with h1 | h1
    · obtain ⟨w, hw, hP⟩ := exprDanger f h1
      exact ⟨w, by simp [visitExpr, hw], hP⟩
    · obtain ⟨w, hw, hP⟩ := exprListDanger args h1
      exact ⟨w, by simp [visitExpr, hw], hP⟩
  | .subscript p v s =>
    rw [exprHasDangerAttr] at h
    rcases Bool.or_eq_true_iff.mp h with h1 | h1
    · obtain ⟨w, hw, hP⟩ := exprDanger v h1
      exact ⟨w, by simp [visitExpr, hw], hP⟩
    · obtain ⟨w, hw, hP⟩ := exprDanger s h1
      exact ⟨w, by simp [visitExpr, hw], hP⟩
  | .constant p c => simp [exprHasDangerAttr] at h
  | .lambdaE p b =>
    rw [exprHasDangerAttr] at h
    obtain ⟨w, hw, hP⟩ := exprDanger b h
    exact ⟨w, by simp [visitExpr, hw], hP⟩
  | .binOp p l r =>
    rw [exprHasDangerAttr] at h
    rcases Bool.or_eq_true_iff.mp h with h1 | h1
    · obtain ⟨w, hw, hP⟩ := exprDanger l h1
      exact ⟨w, by simp [visitExpr, hw], hP⟩
    · obtain ⟨w, hw, hP⟩ := exprDanger r h1
      exact ⟨w, by simp [visitExpr, hw], hP⟩
  | .tupleE p es =>
    rw [exprHasDangerAttr] at h
    obtain ⟨w, hw, hP⟩ := exprListDanger es h
    exact ⟨w, by simp [visitExpr, hw], hP⟩
  | .listE p es =>
    rw [exprHasDangerAttr] at h
    obtain ⟨w, hw, hP⟩ := exprListDanger es h
    exact ⟨w, by simp [visitExpr, hw], hP⟩

/-- List version of `exprDanger`. -/
theorem exprListDanger (es : PyExprList) (h : exprListHasDangerAttr es = true) :
    ∃ v ∈ visitExprList es, isDangerAttrViol v := by
  match es with
  | .nil => simp [exprListHasDangerAttr] at h
  | .cons e rest =>
    rw [exprListHasDangerAttr] at h
    rcases Bool.or_eq_true_iff.mp h with h1 | h1
    · obtain ⟨w, hw, hP⟩ := exprDanger e h1
      exact ⟨w, by simp [visitExprList, hw], hP⟩
    · obtain ⟨w, hw, hP⟩ := exprListDanger rest h1
      exact ⟨w, by simp [visitExprList, hw], hP⟩

/-- Statement version of `exprDanger`. -/
theorem stmtDanger (s : PyStmt) (h : stmtHasDangerAttr s = true) :
    ∃ v ∈ visitStmt s, isDangerAttrViol v := by
  match s with
  | .exprStmt p e =>
    rw [stmtHasDangerAttr] at h
    obtain ⟨w, hw, hP⟩ := exprDanger e h
    exact ⟨w, by simp [visitStmt, hw], hP⟩
  | .assign p targets value =>
    rw [stmtHasDangerAttr] at h
    rcases Bool.or_eq_true_iff.mp h with h1 | h1
    · obtain ⟨w, hw, hP⟩ := exprListDanger targets h1
      exact ⟨w, by simp [visitStmt, hw], hP⟩
    · obtain ⟨w, hw, hP⟩ := exprDanger value h1
      exact ⟨w, by simp [visitStmt, hw], hP⟩
  | .importS p names => simp [stmtHasDangerAttr] at h
  | .importFrom p mod names => simp [stmtHasDangerAttr] at h
  | .functionDef p nm decorators body =>
    rw [stmtHasDangerAttr] at h
    rcases Bool.or_eq_true_iff.mp h with h1 | h1
    · obtain ⟨w, hw, hP⟩ := exprListDanger decorators h1
      exact ⟨w, by simp [visitStmt, hw], hP⟩
    · obtain ⟨w, hw, hP⟩ := stmtListDanger body h1
      exact ⟨w, by simp [visitStmt, hw], hP⟩
  | .classDef p nm bases keywords body =>
    rw [stmtHasDangerAttr] at h
    rcases Bool.or_eq_true_iff.mp h with h1 | h1
    · rcases Bool.or_eq_true_iff.mp h1 with h2 | h2
      · obtain ⟨w, hw, hP⟩ := exprListDanger bases h2
        exact ⟨w, by simp [visitStmt, hw], hP⟩
      · obtain ⟨w, hw, hP⟩ := exprListDanger keywords h2
        exact ⟨w, by simp [visitStmt, hw], hP⟩
    · obtain ⟨w, hw, hP⟩ := stmtListDanger body h1
      exact ⟨w, by simp [visitStmt, hw], hP⟩
  | .globalS p ns => simp [stmtHasDangerAttr] at h
  | .nonlocalS p ns => simp [stmtHasDangerAttr] at h
  | .withS p items body =>
    rw [stmtHasDangerAttr] at h
    rcases Bool.or_eq_true_iff.mp h with h1 | h1
    · obtain ⟨w, hw, hP⟩ := exprListDanger items h1
      exact ⟨w, by simp [visitStmt, hw], hP⟩
    · obtain ⟨w, hw, hP⟩ := stmtListDanger body h1
      exact ⟨w, by simp [visitStmt, hw], hP⟩
  | .tryS p body handlers orelse finalBody =>
    rw [stmtHasDangerAttr] at h
    rcases Bool.or_eq_true_iff.mp h with h1 | h1
    · rcases Bool.or_eq_true_iff.mp h1 with h2 | h2
      · rcases Bool.or_eq_true_iff.mp h2 with h3 | h3
        · obtain ⟨w, hw, hP⟩ := stmtListDanger body h3
          exact ⟨w, by simp [visitStmt, hw], hP⟩
        · obtain ⟨w, hw, hP⟩ := stmtListDanger handlers h3
          exact ⟨w, by simp [visitStmt, hw], hP⟩
      · obtain ⟨w, hw, hP⟩ := stmtListDanger orelse h2
        exact ⟨w, by simp [visitStmt, hw], hP⟩
    · obtain ⟨w, hw, hP⟩ := stmtListDanger finalBody h1
      exact ⟨w, by simp [visitStmt, hw], hP⟩
  | .ifS p c thenB elseB =>
    rw [stmtHasDangerAttr] at h
    rcases Bool.or_eq_true_iff.mp h with h1 | h1
    · rcases Bool.or_eq_true_iff.mp h1 with h2 | h2
      · obtain ⟨w, hw, hP⟩ := exprDanger c h2
        exact ⟨w, by simp [visitStmt, hw], hP⟩
      · obtain ⟨w, hw, hP⟩ := stmtListDanger thenB h2
        exact ⟨w, by simp [visitStmt, hw], hP⟩
    · obtain ⟨w, hw, hP⟩ := stmtListDanger elseB h1
      exact ⟨w, by simp [visitStmt, hw], hP⟩
  | .returnS p eo =>
    match eo with
    | some e =>
      rw [stmtHasDangerAttr] at h
      obtain ⟨w, hw, hP⟩ := exprDanger e h
      exact ⟨w, by simp [visitStmt, hw], hP⟩
    | none => simp [stmtHasDangerAttr] at h
  | .passS p => simp [stmtHasDangerAttr] at h

/-- Module version of `exprDanger`. -/
theorem stmtListDanger (ss : PyStmtList) (h : stmtListHasDangerAttr ss = true) :
    ∃ v ∈ visitStmtList ss, isDangerAttrViol v := by
  match ss with
  | .nil => simp [stmtListHasDangerAttr] at h
  | .cons s rest =>
    rw [stmtListHasDangerAttr] at h
    rcases Bool.or_eq_true_iff.mp h with h1 | h1
    · obtain ⟨w, hw, hP⟩ := stmtDanger s h1
      exact ⟨w, by simp [visitStmtList, hw], hP⟩
    · obtain ⟨w, hw, hP⟩ := stmtListDanger rest h1
      exact ⟨w, by simp [visitStmtList, hw], hP⟩
end

end UltraSecureValidator

/-! ## Helper lemmas -/

/-- Erasing the (at most one) entry satisfying `p` leaves none. -/
theorem countP_le_one_eraseP {α : Type} (p : α → Bool) :
    ∀ l : List α, l.countP p ≤ 1 → (l.eraseP p).countP p = 0 := by
  intro l
  induction l with
  | nil => simp
  | cons a t ih =>
    intro h
    by_cases hp : p a = true
    · rw [List.eraseP_cons_of_pos hp]
      rw [List.countP_cons_of_pos _ _ hp] at h
      omega
    · rw [List.eraseP_cons_of_neg hp, List.countP_cons_of_neg _ _ hp]
      rw [List.countP_cons_of_neg _ _ hp] at h
      exact ih h

/-- Both severity filters are empty exactly when no violation is CRITICAL
or HIGH. -/
theorem crit_high_filters (l : List SecurityViolation) :
    ((l.filter fun v => v.severity == "CRITICAL").isEmpty = true ∧
     (l.filter fun v => v.severity == "HIGH").isEmpty = true) ↔
    (l.all fun v => !(v.severity == "CRITICAL" || v.severity == "HIGH")) = true := by
  induction l with
  | nil => simp
  | cons a t ih =>
    by_cases hc : a.severity = "CRITICAL"
    · simp [List.filter_cons, hc]
    · by_cases hh : a.severity = "HIGH"
      · simp [List.filter_cons, hh]
      · simp [List.filter_cons, hc, hh, ih]
        constructor
        · rintro ⟨h1, h2⟩ x hx
          exact ⟨h1 x hx, h2 x hx⟩
        · intro h
          exact ⟨fun x hx => (h x hx).1, fun x hx => (h x hx).2⟩

/-- The only normal return of `SandboxSecurity.validate_code` is `True`. -/
theorem validate_code_ok_unique (src : PySource) (lang : String) (b : Bool)
    (h : SandboxSecurity.validate_code src lang = .ok b) : b = true := by
  simp only [SandboxSecurity.validate_code] at h
  repeat' split at h
  all_goals simp_all

/-- `all` over a nonempty constant list is decided by the single element. -/
theorem all_replicate_false {α : Type} (p : α → Bool) (a : α)
    (h : p a = false) (m : Nat) :
    (List.replicate (m + 1) a).all p = false := by
  simp [List.replicate_succ, h]

/-! ## Claim theorems -/

/-- C1 (counterexample): for the empty code string (language `python`), the
produced violation list has no CRITICAL or HIGH violation, yet validation
rejects (the input-sanity check raises first) — so acceptance is not
equivalent to the absence of CRITICAL/HIGH violations in the produced
list, refuting the claim as stated. -/
theorem C1_counterexample :
    ¬ ((SandboxSecurity.accepted Fixtures.srcEmpty "python" = true) ↔
       (noCritHigh Fixtures.srcEmpty "python" = true)) := by decide

/-- C1 (amended): once the input-sanity layer passes (non-blank code of at
most 5000 characters), validation accepts iff the produced violation list
has no CRITICAL or HIGH violation — so MEDIUM violations alone never
block; and the rejection raised for violations carries all CRITICAL
findings when any exist, otherwise all HIGH findings. -/
theorem C1_decision_policy (src : PySource) (lang : String) :
    (SandboxSecurity.accepted src lang = true ↔
      (isBlank src.code = false ∧ src.code.length ≤ 5000 ∧
        noCritHigh src lang = true)) ∧
    (isBlank src.code = false → src.code.length ≤ 5000 →
      SandboxSecurity.validate_code src lang =
        (if ((validate_code_ultra_secure src lang).filter fun v =>
              v.severity == "CRITICAL").isEmpty then
          (if ((validate_code_ultra_secure src lang).filter fun v =>
                v.severity == "HIGH").isEmpty then
            .ok true
          else .error (SandboxSecurity.highMsg
            ((validate_code_ultra_secure src lang).filter fun v =>
              v.severity == "HIGH")))
        else .error (SandboxSecurity.critMsg
          ((validate_code_ultra_secure src lang).filter fun v =>
            v.severity == "CRITICAL")))) := by
  have h2nd : isBlank src.code = false → src.code.length ≤ 5000 →
      SandboxSecurity.validate_code src lang =
        (if ((validate_code_ultra_secure src lang).filter fun v =>
              v.severity == "CRITICAL").isEmpty then
          (if ((validate_code_ultra_secure src lang).filter fun v =>
                v.severity == "HIGH").isEmpty then
            .ok true
          else .error (SandboxSecurity.highMsg
            ((validate_code_ultra_secure src lang).filter fun v =>
              v.severity == "HIGH")))
        else .error (SandboxSecurity.critMsg
          ((validate_code_ultra_secure src lang).filter fun v =>
            v.severity == "CRITICAL"))) := by
    intro h1 h2
    simp only [SandboxSecurity.validate_code]
    rw [if_neg (by simp [h1]), if_neg (by omega : ¬ src.code.length > 5000)]
  refine ⟨?_, h2nd⟩
  by_cases h1 : isBlank src.code = true
  · have hv : SandboxSecurity.validate_code src lang = .error "Empty code not allowed" := by
      simp only [SandboxSecurity.validate_code]
      rw [if_pos h1]
    simp [SandboxSecurity.accepted, hv, h1]
  · have h1' : isBlank src.code = false := by simpa using h1
    by_cases h2 : src.code.length ≤ 5000
    · have hv := h2nd h1' h2
      by_cases hc : ((validate_code_ultra_secure src lang).filter fun v =>
          v.severity == "CRITICAL").isEmpty = true
      · by_cases hh : ((validate_code_ultra_secure src lang).filter fun v =>
            v.severity == "HIGH").isEmpty = true
        · have hok : SandboxSecurity.validate_code src lang = .ok true := by
            rw [hv, if_pos hc, if_pos hh]
          have hnch : noCritHigh src lang = true :=
            (crit_high_filters _).mp ⟨hc, hh⟩
          simp [SandboxSecurity.accepted, hok, h1', h2, hnch]
        · have herr : SandboxSecurity.validate_code src lang =
              .error (SandboxSecurity.highMsg
                ((validate_code_ultra_secure src lang).filter fun v =>
                  v.severity == "HIGH")) := by
            rw [hv, if_pos hc, if_neg hh]
          have hnch : ¬ noCritHigh src lang = true := fun hx =>
            hh ((crit_high_filters _).mpr hx).2
          simp [SandboxSecurity.accepted, herr, hnch]
      · have herr : SandboxSecurity.validate_code src lang =
            .error (SandboxSecurity.critMsg
              ((validate_code_ultra_secure src lang).filter fun v =>
                v.severity == "CRITICAL")) := by
          rw [hv, if_neg hc]
        have hnch : ¬ noCritHigh src lang = true := fun hx =>
          hc ((crit_high_filters _).mpr hx).1
        simp [SandboxSecurity.accepted, herr, hnch]
    · have hv : SandboxSecurity.validate_code src lang =
          .error "Code too long - maximum 5KB allowed" := by
        simp only [SandboxSecurity.validate_code]
        rw [if_neg h1, if_pos (by omega : src.code.length > 5000)]
      simp [SandboxSecurity.accepted, hv, h2]

/-- C1 (witness): `print(1+1)` passes sanity and produces no CRITICAL or
HIGH violation, hence is accepted; its full validation run returns
normally. -/
theorem C1_decision_policy_witness :
    SandboxSecurity.accepted Fixtures.srcPrint "python" = true ∧
    SandboxSecurity.validate_code Fixtures.srcPrint "python" = .ok true := by
  have h := C1_decision_policy Fixtures.srcPrint "python"
  refine ⟨h.1.mpr (by decide), ?_⟩
  have h2 := h.2 (by decide) (by decide)
  rw [h2, if_pos (by decide), if_pos (by decide)]

/-- C2: any modelled Python tree containing an attribute access whose name
is in the dangerous-attribute set yields at least one CRITICAL
`DANGEROUS_ATTRIBUTE` violation, whatever the surrounding context; and the
concrete class-graph escape chain (empty tuple → `__class__` → `__bases__`
→ `__subclasses__` → `os._exit`) produces such a violation and is
rejected. -/
theorem C2_dangerous_attribute :
    (∀ m : PyStmtList, stmtListHasDangerAttr m = true →
      ∃ v ∈ UltraSecureValidator.validate (.ok m), isDangerAttrViol v) ∧
    (∃ v ∈ validate_code_ultra_secure Fixtures.srcEscape "python",
      isDangerAttrViol v) ∧
    SandboxSecurity.accepted Fixtures.srcEscape "python" = false := by
  refine ⟨?_, by decide, by decide⟩
  intro m h
  simpa [UltraSecureValidator.validate] using
    UltraSecureValidator.stmtListDanger m h

/-- C2 (witness): the escape-chain module contains a dangerous attribute
access, so the general statement applies to it. -/
theorem C2_dangerous_attribute_witness :
    ∃ v ∈ UltraSecureValidator.validate (.ok Fixtures.escapeModule),
      isDangerAttrViol v :=
  C2_dangerous_attribute.1 Fixtures.escapeModule (by decide)

/-- C3: whatever the parse outcome (the conclusion holds for every
`parsed` field, so no AST or pattern analysis can influence it), blank
code is rejected with the empty-code error, and non-blank code longer
than the 5000-character cap is rejected with the size error, both at the
input-sanity layer. -/
theorem C3_input_sanity (src : PySource) (lang : String) :
    (isBlank src.code = true →
      SandboxSecurity.validate_code src lang = .error "Empty code not allowed") ∧
    (isBlank src.code = false → src.code.length > 5000 →
      SandboxSecurity.validate_code src lang =
        .error "Code too long - maximum 5KB allowed") := by
  constructor
  · intro h
    simp only [SandboxSecurity.validate_code]
    rw [if_pos h]
  · intro h1 h2
    simp only [SandboxSecurity.validate_code]
    rw [if_neg (by simp [h1]), if_pos h2]

/-- C3 (witness): 5001 characters of otherwise-benign code are rejected
with the size error. -/
theorem C3_input_sanity_witness :
    SandboxSecurity.validate_code Fixtures.longBenign "python" =
      .error "Code too long - maximum 5KB allowed" := by
  have hlist : Fixtures.longBenign.code.toList = List.replicate 5001 'a' := rfl
  have h1 : isBlank Fixtures.longBenign.code = false := by
    rw [isBlank, hlist]
    exact all_replicate_false _ _ (by decide) 5000
  have h2 : Fixtures.longBenign.code.length > 5000 := by
    have : Fixtures.longBenign.code.length = 5001 := by
      show (List.replicate 5001 'a').length = 5001
      exact List.length_replicate ..
    omega
  exact (C3_input_sanity Fixtures.longBenign "python").2 h1 h2

/-- C10: for every language other than `python` and `javascript`,
`validate_code_ultra_secure` returns exactly the CRITICAL
`UNSUPPORTED_LANGUAGE` violation, so validation never accepts such code —
even though the executor does define a run command for `bash`. -/
theorem C10_unsupported_language (src : PySource) (lang : String)
    (h1 : lang ≠ "python") (h2 : lang ≠ "javascript") :
    validate_code_ultra_secure src lang =
      [⟨"UNSUPPORTED_LANGUAGE", "Language " ++ lang ++ " is not supported",
        0, 0, "CRITICAL"⟩] ∧
    SandboxSecurity.accepted src lang = false ∧
    (∀ path, SecureFileExecutor.get_execution_command path "bash" =
      some ["/bin/bash", "-r", path]) := by
  have hval : validate_code_ultra_secure src lang =
      [⟨"UNSUPPORTED_LANGUAGE", "Language " ++ lang ++ " is not supported",
        0, 0, "CRITICAL"⟩] := by
    simp [validate_code_ultra_secure, h1, h2]
  refine ⟨hval, ?_, fun path => rfl⟩
  by_cases ht : isBlank src.code = true
  · simp [SandboxSecurity.accepted, SandboxSecurity.validate_code, ht]
  · by_cases hl : src.code.length > 5000
    · simp [SandboxSecurity.accepted, SandboxSecurity.validate_code, ht, hl]
    · simp [SandboxSecurity.accepted, SandboxSecurity.validate_code, ht, hl, hval]

/-- C10 (witness): `bash` input (here the benign `print(1+1)`) receives
the `UNSUPPORTED_LANGUAGE` violation and is rejected. -/
theorem C10_unsupported_language_witness :
    validate_code_ultra_secure Fixtures.srcPrint "bash" =
      [⟨"UNSUPPORTED_LANGUAGE", "Language " ++ "bash" ++ " is not supported",
        0, 0, "CRITICAL"⟩] ∧
    SandboxSecurity.accepted Fixtures.srcPrint "bash" = false := by
  have h := C10_unsupported_language Fixtures.srcPrint "bash"
    (by decide) (by decide)
  exact ⟨h.1, h.2.1⟩

/-- Writing a result over at most one existing entry for the same id
leaves exactly one entry for it. -/
theorem putResult_count (rs : List (String × SecureFileExecutor.ResultRecord))
    (id : String) (rec : SecureFileExecutor.ResultRecord)
    (h : rs.countP (fun e => e.1 == id) ≤ 1) :
    (SecureFileExecutor.putResult rs id rec).countP (fun e => e.1 == id) = 1 := by
  unfold SecureFileExecutor.putResult
  rw [List.countP_cons_of_pos _ _ (by simp)]
  rw [countP_le_one_eraseP _ _ h]

/-- C4: processing one picked-up command file deletes it from the inbox on
every path (including a raised exception, via the `finally` block), so it
is processed at most once; and for a deserialized command whose id names
the file (as the controller guarantees), exactly one result file with
that id exists afterwards. -/
theorem C4_at_most_once (env : SecureFileExecutor.ExecEnv)
    (fs : SecureFileExecutor.FileState) (stem : String)
    (payload : Except String SecureFileExecutor.ExecutionCommand)
    (hstem : fs.inbox.countP (fun e => e.1 == stem) ≤ 1) :
    ((SecureFileExecutor.process_one env fs stem payload).inbox.countP
        (fun e => e.1 == stem) = 0) ∧
    (∀ cmd, payload = .ok cmd → cmd.id = stem →
      fs.results.countP (fun e => e.1 == cmd.id) ≤ 1 →
      (SecureFileExecutor.process_one env fs stem payload).results.countP
        (fun e => e.1 == cmd.id) = 1) := by
  constructor
  · have hinbox : (SecureFileExecutor.process_one env fs stem payload).inbox =
        fs.inbox.eraseP (fun e => e.1 == stem) := by
      unfold SecureFileExecutor.process_one
      cases payload with
      | error msg => rfl
      | ok cmd =>
        rcases hx : SecureFileExecutor.execute_secure env fs.workspace cmd with
          ⟨res, ws2⟩
        cases res <;> simp [hx]
    rw [hinbox]
    exact countP_le_one_eraseP _ _ hstem
  · intro cmd hp hid hres
    subst hp
    subst hid
    unfold SecureFileExecutor.process_one
    rcases hx : SecureFileExecutor.execute_secure env fs.workspace cmd with
      ⟨res, ws2⟩
    cases res with
    | ok r =>
      simp only [hx]
      exact putResult_count _ _ _ hres
    | error msg =>
      simp only [hx]
      exact putResult_count _ _ _ hres

/-- C4 (witness): a concrete benign command file is consumed and leaves
exactly one result under its id. -/
theorem C4_at_most_once_witness :
    ((SecureFileExecutor.process_one Fixtures.envOk Fixtures.fsOne "cmd-1"
        (.ok Fixtures.cmdPrint)).inbox.countP (fun e => e.1 == "cmd-1") = 0) ∧
    ((SecureFileExecutor.process_one Fixtures.envOk Fixtures.fsOne "cmd-1"
        (.ok Fixtures.cmdPrint)).results.countP (fun e => e.1 == "cmd-1") = 1) := by
  have h := C4_at_most_once Fixtures.envOk Fixtures.fsOne "cmd-1"
    (.ok Fixtures.cmdPrint) (by decide)
  exact ⟨h.1, h.2 Fixtures.cmdPrint rfl rfl (by decide)⟩

/-- C5: on the synchronous `CodeExecutor` path a timeout does yield the
negative sentinel `-9` with a timeout message, as the claim states; but
the result the file-based worker delivers for a timed-out accepted
command has exit code `1` (not a negative sentinel) and is tagged as a
security error, because `run_subprocess_secure` re-raises and the generic
error path writes the record. -/
theorem C5_timeout_result :
    (∀ t : Nat, CodeExecutor.run_subprocess_secure .timedOut t =
      ⟨"", "EXECUTION TIMEOUT: Process killed after timeout", -9⟩) ∧
    SecureFileExecutor.lookupResult
        (SecureFileExecutor.process_one Fixtures.envTimeout Fixtures.fsOne
          "cmd-1" (.ok Fixtures.cmdPrint)) "cmd-1" =
      some (SecureFileExecutor.errorRecord Fixtures.envTimeout
        "Execution failed: Execution timeout after 30 seconds") ∧
    (SecureFileExecutor.errorRecord Fixtures.envTimeout
      "Execution failed: Execution timeout after 30 seconds").exit_code = 1 ∧
    (SecureFileExecutor.errorRecord Fixtures.envTimeout
      "Execution failed: Execution timeout after 30 seconds").security_error =
      some true ∧
    strContains (SecureFileExecutor.errorRecord Fixtures.envTimeout
      "Execution failed: Execution timeout after 30 seconds").stderr
      "timeout" = true := by
  refine ⟨fun t => rfl, by decide, rfl, rfl, by decide⟩

/-- C6: on the synchronous `CodeExecutor` path an engine-level exception
does yield the `-1` sentinel record, as the claim states; but the result
the file-based worker delivers when the interpreter binary is missing has
exit code `1` (not a negative sentinel), via the same generic error
path. -/
theorem C6_engine_exception_result :
    (∀ (msg : String) (t : Nat),
      CodeExecutor.run_subprocess_secure (.failed msg) t =
        ⟨"", "EXECUTION ERROR: " ++ msg, -1⟩) ∧
    SecureFileExecutor.lookupResult
        (SecureFileExecutor.process_one Fixtures.envMissing Fixtures.fsOne
          "cmd-1" (.ok Fixtures.cmdPrint)) "cmd-1" =
      some (SecureFileExecutor.errorRecord Fixtures.envMissing
        "Execution failed: [Errno 2] No such file or directory: '/usr/bin/python3'") ∧
    (SecureFileExecutor.errorRecord Fixtures.envMissing
      "Execution failed: [Errno 2] No such file or directory: '/usr/bin/python3'").exit_code
      = 1 := by
  refine ⟨fun msg t => rfl, by decide, rfl⟩

/-- C7: the scratch file named by `mkstemp` for an execution is absent
from the workspace after `execute_secure` returns, on every exit path —
validation rejection (no file is ever created), normal completion,
timeout, and engine exception (the `finally` block deletes it). -/
theorem C7_scratch_cleanup (env : SecureFileExecutor.ExecEnv)
    (ws : List String) (cmd : SecureFileExecutor.ExecutionCommand)
    (h : env.tempName ∉ ws) :
    env.tempName ∉ (SecureFileExecutor.execute_secure env ws cmd).2 := by
  cases hv : SandboxSecurity.validate_code cmd.code cmd.language with
  | error e =>
    simp only [SecureFileExecutor.execute_secure, hv]
    exact h
  | ok b =>
    simp only [SecureFileExecutor.execute_secure, hv,
      SecureFileExecutor.execute_with_restrictions]
    rw [List.erase_cons_head]
    exact h

/-- C7 (witness): concrete run (normal completion) leaves no scratch
file. -/
theorem C7_scratch_cleanup_witness :
    "exec_ok.py" ∉ (SecureFileExecutor.execute_secure Fixtures.envOk []
      Fixtures.cmdPrint).2 :=
  C7_scratch_cleanup Fixtures.envOk [] Fixtures.cmdPrint (by decide)

/-- C8 (counterexample): against an instance whose only defect is one
published port (8080), the audit returns overall=false, but its
violations list holds only the generic isolation-incomplete message — no
violation names the port, refuting the claim as stated. -/
theorem C8_counterexample :
    (NetworkSecurityValidator.validate_network_isolation Fixtures.auditEnvPort
      "locodex-sandbox").network_isolated = false ∧
    (NetworkSecurityValidator.validate_network_isolation Fixtures.auditEnvPort
      "locodex-sandbox").violations =
      ["Network isolation is INCOMPLETE - SECURITY RISK!"] ∧
    ∀ v ∈ (NetworkSecurityValidator.validate_network_isolation
      Fixtures.auditEnvPort "locodex-sandbox").violations,
      strContains v "8080" = false := by
  refine ⟨by decide, by decide, by decide⟩

/-- C8 (amended): the overall isolation verdict equals the conjunction of
the four sub-tests; a correctly configured running instance yields
overall=true with an empty violations list; an instance with one open
port yields overall=false with the single generic isolation-incomplete
violation (the port itself is only printed, not recorded). -/
theorem C8_audit_overall (env : NetworkSecurityValidator.AuditEnv)
    (name : String) :
    ((NetworkSecurityValidator.validate_network_isolation env name).network_isolated =
      ((NetworkSecurityValidator.validate_network_isolation env name).internet_blocked &&
       (NetworkSecurityValidator.validate_network_isolation env name).internal_access_blocked &&
       (NetworkSecurityValidator.validate_network_isolation env name).dns_blocked &&
       (NetworkSecurityValidator.validate_network_isolation env name).port_exposure_safe)) ∧
    (NetworkSecurityValidator.is_container_running env name = true →
     NetworkSecurityValidator.test_internet_blocked env = true →
     NetworkSecurityValidator.test_internal_network_blocked env = true →
     NetworkSecurityValidator.test_dns_blocked env = true →
     NetworkSecurityValidator.test_port_exposure_safe env = true →
      (NetworkSecurityValidator.validate_network_isolation env name).network_isolated = true ∧
      (NetworkSecurityValidator.validate_network_isolation env name).violations = []) ∧
    (NetworkSecurityValidator.is_container_running env name = true →
     NetworkSecurityValidator.test_port_exposure_safe env = false →
      (NetworkSecurityValidator.validate_network_isolation env name).network_isolated = false ∧
      (NetworkSecurityValidator.validate_network_isolation env name).violations =
        ["Network isolation is INCOMPLETE - SECURITY RISK!"]) := by
  refine ⟨?_, ?_, ?_⟩
  · by_cases hr : NetworkSecurityValidator.is_container_running env name = true
    · simp [NetworkSecurityValidator.validate_network_isolation, hr]
    · simp [NetworkSecurityValidator.validate_network_isolation, hr]
  · intro hr h1 h2 h3 h4
    simp [NetworkSecurityValidator.validate_network_isolation, hr, h1, h2, h3, h4]
  · intro hr h4
    simp [NetworkSecurityValidator.validate_network_isolation, hr, h4]

/-- C8 (witness): a clean running instance audits as isolated with no
violations. -/
theorem C8_audit_overall_witness :
    (NetworkSecurityValidator.validate_network_isolation Fixtures.auditEnvClean
      "locodex-sandbox").network_isolated = true ∧
    (NetworkSecurityValidator.validate_network_isolation Fixtures.auditEnvClean
      "locodex-sandbox").violations = [] :=
  (C8_audit_overall Fixtures.auditEnvClean "locodex-sandbox").2.1
    (by decide) (by decide) (by decide) (by decide) (by decide)

/-- C9 (counterexample): the error record written for a malformed command
payload and the one written for a validation (security) rejection carry
the same tag: `security_error = true`, `exit_code = 1`, and the same
`SECURITY ERROR: ` stderr prefix — the two failure kinds are not tagged
distinctly, refuting the claim as stated. -/
theorem C9_counterexample :
    ((SecureFileExecutor.lookupResult
        (SecureFileExecutor.process_one Fixtures.envOk Fixtures.fsOne "a"
          (.error "Expecting value: line 1 column 1 (char 0)")) "a").map
      (fun r => (r.security_error, r.exit_code,
        strStartsWith r.stderr "SECURITY ERROR: ")) =
      some (some true, 1, true)) ∧
    ((SecureFileExecutor.lookupResult
        (SecureFileExecutor.process_one Fixtures.envOk Fixtures.fsOne "b"
          (.ok Fixtures.cmdImportOs)) "b").map
      (fun r => (r.security_error, r.exit_code,
        strStartsWith r.stderr "SECURITY ERROR: ")) =
      some (some true, 1, true)) := by
  refine ⟨by decide, by decide⟩

/-- C9 (amended): both failure kinds are written through the same
`write_error_result` path — `security_error: true`, exit code `1`,
stderr prefixed `SECURITY ERROR: ` — and differ only in the message text:
a validation rejection's stderr continues with `SECURITY BLOCK: `, a
malformed payload's with the deserialization error text. -/
theorem C9_error_tagging (env : SecureFileExecutor.ExecEnv)
    (fs : SecureFileExecutor.FileState) (stem msg : String)
    (cmd : SecureFileExecutor.ExecutionCommand) :
    (SecureFileExecutor.lookupResult
        (SecureFileExecutor.process_one env fs stem (.error msg)) stem =
      some (SecureFileExecutor.errorRecord env msg) ∧
     (SecureFileExecutor.errorRecord env msg).security_error = some true ∧
     (SecureFileExecutor.errorRecord env msg).stderr = "SECURITY ERROR: " ++ msg ∧
     (SecureFileExecutor.errorRecord env msg).exit_code = 1) ∧
    (∀ e, SandboxSecurity.validate_code cmd.code cmd.language = .error e →
      SecureFileExecutor.lookupResult
          (SecureFileExecutor.process_one env fs stem (.ok cmd)) stem =
        some (SecureFileExecutor.errorRecord env ("SECURITY BLOCK: " ++ e)) ∧
      (SecureFileExecutor.errorRecord env ("SECURITY BLOCK: " ++ e)).stderr =
        "SECURITY ERROR: SECURITY BLOCK: " ++ e ∧
      (SecureFileExecutor.errorRecord env ("SECURITY BLOCK: " ++ e)).security_error =
        some true) := by
  constructor
  · refine ⟨?_, rfl, rfl, rfl⟩
    simp [SecureFileExecutor.process_one, SecureFileExecutor.lookupResult,
      SecureFileExecutor.putResult]
  · intro e he
    refine ⟨?_, ?_, rfl⟩
    · simp [SecureFileExecutor.process_one, SecureFileExecutor.execute_secure,
        he, SecureFileExecutor.lookupResult, SecureFileExecutor.putResult]
    · show "SECURITY ERROR: " ++ ("SECURITY BLOCK: " ++ e) =
        "SECURITY ERROR: SECURITY BLOCK: " ++ e
      rw [← String.append_assoc]
      rfl

/-- C9 (witness): concrete security rejection (`import os`) is delivered
through the error path with the `SECURITY BLOCK: ` message. -/
theorem C9_error_tagging_witness :
    SecureFileExecutor.lookupResult
        (SecureFileExecutor.process_one Fixtures.envOk Fixtures.fsOne "cmd-os"
          (.ok Fixtures.cmdImportOs)) "cmd-os" =
      some (SecureFileExecutor.errorRecord Fixtures.envOk
        ("SECURITY BLOCK: " ++ Fixtures.eOs)) :=
  ((C9_error_tagging Fixtures.envOk Fixtures.fsOne "cmd-os" "x"
      Fixtures.cmdImportOs).2 Fixtures.eOs (by rfl)).1
